import Mathlib

/-!
Shallow embedding of `psfs.py` (a FUSE filesystem exposing the OS process
tree) together with the parts of its process-table provider `procpy` that
the filesystem code calls.  Python strings become `String`, the process
table becomes an explicit `Snapshot` value threaded through every
operation, integer errno returns become `Int`, and the provider's
"PID not found" exception becomes an explicit `Except` error that the
filesystem code propagates exactly where the Python code would let the
exception escape.
-/

/-- Characters matched by Python's `\w` (no `re.UNICODE` flag, so ASCII
letters, digits and underscore). -/
def isWordChar (c : Char) : Bool :=
  c.isAlphanum || c = '_'

/-- Numeric value of a decimal digit character, as Python's `int` parsing
computes it digit by digit. -/
def digitVal (c : Char) : Nat :=
  c.toNat - '0'.toNat

/-- Value of a decimal digit string, mirroring Python's `int(...)` applied
to the regex digit group. -/
def digitsToNat (ds : List Char) : Nat :=
  ds.foldl (fun a c => a * 10 + digitVal c) 0

/-- Fuel-driven decimal digit expansion of a natural number (most
significant digit first).  With fuel above the number it agrees with
Python's `str`. -/
def natDigitsAux : Nat → Nat → List Char
  | 0, _ => []
  | fuel + 1, n =>
    if n < 10 then [Nat.digitChar n]
    else natDigitsAux fuel (n / 10) ++ [Nat.digitChar (n % 10)]

/-- Python's `str` on a non-negative integer. -/
def natToString (n : Nat) : String :=
  String.mk (natDigitsAux (n + 1) n)

/-- Python's `"%0wd" % n` for non-negative `n`: decimal digits zero-padded
on the left to width `w`. -/
def pad0 (w : Nat) (n : Nat) : String :=
  let s := natToString n
  if s.length < w then String.mk (List.replicate (w - s.length) '0') ++ s else s

/-- Python's `"%wd" % n` for non-negative `n`: decimal digits space-padded
on the left to width `w`. -/
def padSp (w : Nat) (n : Nat) : String :=
  let s := natToString n
  if s.length < w then String.mk (List.replicate (w - s.length) ' ') ++ s else s

/-- Python's `' '.join(xs)`. -/
def joinSpace : List String → String
  | [] => ""
  | [x] => x
  | x :: y :: ys => x ++ " " ++ joinSpace (y :: ys)

/-- Python's `s.split(sep)` on the character list: splits at every
occurrence of `sep`, keeping empty pieces. -/
def pySplitAux (sep : Char) : List Char → List (List Char)
  | [] => [[]]
  | c :: cs =>
    match pySplitAux sep cs with
    | [] => [[]]
    | h :: t => if c = sep then [] :: h :: t else (c :: h) :: t

/-- Python's `s.split(sep)` for a one-character separator. -/
def pySplit (sep : Char) (s : String) : List String :=
  (pySplitAux sep s.data).map String.mk

/-- Python's `elem[-1]` on a non-empty list, with `""` returned for the
empty list (paths handed to the filesystem always split into at least two
segments, so the default is never exercised by the operations below). -/
def lastStr : List String → String
  | [] => ""
  | [x] => x
  | _ :: y :: ys => lastStr (y :: ys)

/-- Python's `elem[-2]`, with the same `""` default for too-short lists. -/
def penultStr (l : List String) : String :=
  lastStr l.dropLast

/-- One attempt of the regex `\w+\((\d+)\)` anchored at the head of the
character list: a non-empty maximal run of word characters, then `'('`,
then a non-empty maximal run of digits, then `')'`.  Returns the parsed
digit group.  (Backtracking inside `\w+` or `\d+` can never help, because
a word character is never `'('` and a digit is never `')'`.) -/
def tryMatchAt (s : List Char) : Option Nat :=
  let w := s.takeWhile isWordChar
  let rest := s.dropWhile isWordChar
  if w = [] then none
  else
    match rest with
    | [] => none
    | c :: r2 =>
      if c = '(' then
        let d := r2.takeWhile Char.isDigit
        let r3 := r2.dropWhile Char.isDigit
        if d = [] then none
        else
          match r3 with
          | [] => none
          | c2 :: _ => if c2 = ')' then some (digitsToNat d) else none
      else none

/-- Python's `re.search` for the pattern `\w+\((?P<num>\d+)\)`: try a match
at each successive start position, returning the first hit's digit group. -/
def searchNum : List Char → Option Nat
  | [] => none
  | c :: cs =>
    match tryMatchAt (c :: cs) with
    | some n => some n
    | none => searchNum cs

namespace PsFS

/-- The provider's error type: `procpy.error` raised by `readproc_by_pid`
when the PID is absent (see the doctest in `procpy.py`: "PID not found"). -/
inductive ProcError where
  | pidNotFound
deriving DecidableEq

/-- One row of the process table, holding exactly the fields `psfs.py`
reads from the dictionaries `procpy` returns.  `start` is used at indices
3 and 4 (hour, minute) and `time` at indices 0 and 1 (minutes, seconds),
modelled here as the four named fields. -/
structure ProcessRecord where
  tid : Nat
  ppid : Nat
  cmd : String
  cmdline : List String
  ruser : String
  pcpustr : String
  pmemstr : String
  ttynam : String
  startHour : Nat
  startMin : Nat
  timeMin : Nat
  timeSec : Nat
deriving DecidableEq

/-- The current process table as observed by one call. -/
abbrev Snapshot := List ProcessRecord

/-- Modelled from the spec: the Snapshot Provider's `byIdentifier`
operation (`procpy.readproc_by_pid`, implemented in the `_procpy` C
extension, which is not part of the sources).  Per the spec it returns the
process's current record or signals absence; per the doctest in
`procpy.py` absence is signalled by raising `procpy.error` ("PID not
found"), modelled as `Except.error`. -/
def readproc_by_pid (s : Snapshot) (pid : Nat) : Except ProcError ProcessRecord :=
  match s.find? (fun r => r.tid == pid) with
  | some r => .ok r
  | none => .error .pidNotFound

/-- The eight attribute-file names (`PsFS.infoFiles`). -/
def infoFiles : List String :=
  ["USER", "PID", "CPU", "MEM", "TTY", "START", "TIME", "COMMAND"]

/-- `PsFS.getPid`: extract the identifier from a `name(pid)` segment with
`re.search`, returning the `0` sentinel when the pattern does not occur. -/
def getPid (procName : String) : Nat :=
  (searchNum procName.data).getD 0

/-- `PsFS.getProcessInfo`: the raw provider lookup, exception and all. -/
def getProcessInfo (s : Snapshot) (pid : Nat) : Except ProcError ProcessRecord :=
  readproc_by_pid s pid

/-- `PsFS.getChildProcessInfo`: scan the full table (`procpy.readproc()`)
and keep the rows whose parent identifier equals `pid`. -/
def getChildProcessInfo (s : Snapshot) (pid : Nat) : List ProcessRecord :=
  s.filter (fun r => r.ppid == pid)

/-- `PsFS.makeProcName`: encode a `(name, identifier)` pair as a segment. -/
def makeProcName (procName : String) (pid : Nat) : String :=
  procName ++ "(" ++ natToString pid ++ ")"

/-- `PsFS.isExist`: decode parent and child segments; `false` on either
decode failure or on a parent mismatch; the provider exception for an
absent child propagates (the Python code performs no handling). -/
def isExist (s : Snapshot) (parent child : String) : Except ProcError Bool :=
  let ppid := getPid parent
  let pid := getPid child
  if ppid = 0 ∨ pid = 0 then .ok false
  else
    match getProcessInfo s pid with
    | .error e => .error e
    | .ok info => if info.ppid ≠ ppid then .ok false else .ok true

/-- One directory entry as yielded by `readdir` (`fuse.Direntry`): the
name together with the `type` field (0 when the code leaves it unset). -/
structure Direntry where
  name : String
  dtype : Nat
deriving DecidableEq

/-- `stat.S_IFDIR` (octal 040000). -/
def S_IFDIR : Nat := 16384

/-- `stat.S_IFREG | 0444` (octal 100444): 32768 + 292. -/
def regFileMode : Nat := 33060

/-- `PsFS.readdir`: always yields `.` and `..`; at `"/"` yields the
hard-coded `init(1)` directory entry; at any other path yields the eight
attribute files and one directory entry per process whose parent equals
the pid decoded from the final segment.  The `offset` argument is ignored
by the source. -/
def readdir (s : Snapshot) (path : String) (offset : Nat) : List Direntry :=
  [⟨".", 0⟩, ⟨"..", 0⟩] ++
  (if path = "/" then [⟨"init(1)", S_IFDIR⟩]
   else
     (infoFiles.map (fun i => ⟨i, regFileMode⟩)) ++
     ((getChildProcessInfo s (getPid (lastStr (pySplit '/' path)))).map
       (fun child => ⟨makeProcName child.cmd child.tid, S_IFDIR⟩)))

/-- `PsFS.open`: `-ENOENT` at `"/"`, success when the final segment is one
of the eight attribute names, `-ENOENT` otherwise.  The flags argument is
never inspected by the source. -/
def fsOpen (path : String) (flags : Nat) : Int :=
  if path = "/" then -2
  else if infoFiles.contains (lastStr (pySplit '/' path)) then 0
  else -2

/-- `PsFS.getFileInfo`: fetch the record (provider exception propagating)
and render one attribute.  `START` is `"%02d:%02d"` on hour and minute,
`TIME` is `"%4d:%02d"` on minutes and seconds, `COMMAND` joins the
command line with single spaces. -/
def getFileInfo (s : Snapshot) (pid : Nat) (info : String) : Except ProcError String :=
  match getProcessInfo s pid with
  | .error e => .error e
  | .ok proc =>
    if info = "PID" then .ok (natToString proc.tid)
    else if info = "USER" then .ok proc.ruser
    else if info = "CPU" then .ok proc.pcpustr
    else if info = "MEM" then .ok proc.pmemstr
    else if info = "TTY" then .ok proc.ttynam
    else if info = "START" then .ok (pad0 2 proc.startHour ++ ":" ++ pad0 2 proc.startMin)
    else if info = "TIME" then .ok (padSp 4 proc.timeMin ++ ":" ++ pad0 2 proc.timeSec)
    else if info = "COMMAND" then .ok (joinSpace proc.cmdline)
    else .ok ""

/-- Result of a `read` call: returned content, a returned `-errno`, or an
uncaught provider exception escaping the handler. -/
inductive ReadResult where
  | content : String → ReadResult
  | err : Int → ReadResult
  | raised : ReadResult
deriving DecidableEq

/-- `PsFS.read`: `-ENOENT` at `"/"`, at a non-attribute final segment, or
when the second-to-last segment fails to decode; otherwise the whole
rendered attribute plus a newline.  The `size` and `offset` arguments are
ignored by the source, and a provider exception from `getFileInfo`
escapes. -/
def read (s : Snapshot) (path : String) (size offset : Nat) : ReadResult :=
  if path = "/" then .err (-2)
  else
    let elem := pySplit '/' path
    if infoFiles.contains (lastStr elem) then
      let pid := getPid (penultStr elem)
      if pid = 0 then .err (-2)
      else
        match getFileInfo s pid (lastStr elem) with
        | .ok txt => .content (txt ++ "\n")
        | .error _ => .raised
    else .err (-2)

/-- `PsFS.rmdir`: `-EINVAL` when the final segment is the literal
`init(1)` or fails to decode; otherwise issue `kill -9` on the decoded
identifier and return 0.  The second component collects the termination
requests issued (`os.system('kill -9 ...')`).  The source method never
consults the process table, which is why no `Snapshot` argument appears. -/
def rmdir (path : String) : Int × List Nat :=
  let elem := pySplit '/' path
  if lastStr elem = "init(1)" then (-22, [])
  else
    let pid := getPid (lastStr elem)
    if pid = 0 then (-22, [])
    else (0, [pid])

/-- A root process record: pid 1, parent 0, command `init`. -/
def initRec : ProcessRecord :=
  ⟨1, 0, "init", ["/sbin/init"], "root", "0.0", "0.1", "?", 12, 30, 0, 3⟩

/-- A shell child of pid 1: pid 42, parent 1, accumulated CPU time 7 min
5 s. -/
def shRec : ProcessRecord :=
  ⟨42, 1, "sh", ["/bin/sh"], "root", "0.0", "0.0", "tty1", 12, 31, 7, 5⟩

/-- A table with `init` (pid 1) and its child `sh` (pid 42). -/
def sampleSnap : Snapshot := [initRec, shRec]

/-- A pid-42 process whose real parent is 7, not 1 (mismatched ancestry
scenario). -/
def bogusRec : ProcessRecord :=
  ⟨42, 7, "bogus", ["bogus"], "root", "0.0", "0.0", "tty2", 1, 2, 0, 0⟩

/-- A table where pid 42 exists but is not a child of pid 1. -/
def snapMismatch : Snapshot := [initRec, bogusRec]

/-- A table containing only the root process: pid 42 is absent. -/
def snapOnlyInit : Snapshot := [initRec]

/-- A root process whose command name is `systemd` rather than `init`. -/
def systemdRec : ProcessRecord :=
  ⟨1, 0, "systemd", ["/lib/systemd/systemd"], "root", "0.0", "0.1", "?", 0, 0, 0, 0⟩

/-- A table whose pid-1 process is named `systemd`. -/
def snapSystemd : Snapshot := [systemdRec]

end PsFS

lemma strData_append (a b : String) : (a ++ b).data = a.data ++ b.data := by
  cases a; cases b; rfl

lemma strLength_append (a b : String) : (a ++ b).length = a.length + b.length := by
  cases a with
  | mk l =>
    cases b with
    | mk m => exact List.length_append l m

lemma strLength_mk (l : List Char) : (String.mk l).length = l.length := rfl

lemma isWordChar_lparen : isWordChar '(' = false := by decide

lemma isDigit_rparen : Char.isDigit ')' = false := by decide

lemma digitChar_isDigit (n : Nat) (h : n < 10) : (Nat.digitChar n).isDigit = true := by
  interval_cases n <;> decide

lemma digitChar_val (n : Nat) (h : n < 10) : digitVal (Nat.digitChar n) = n := by
  interval_cases n <;> decide

lemma natDigitsAux_all_digit :
    ∀ fuel n c, c ∈ natDigitsAux fuel n → c.isDigit = true := by
  intro fuel
  induction fuel with
  | zero => intro n c hc; simp [natDigitsAux] at hc
  | succ f ih =>
    intro n c hc
    by_cases h : n < 10
    · simp [natDigitsAux, h] at hc
      subst hc
      exact digitChar_isDigit n h
    · simp [natDigitsAux, h] at hc
      rcases hc with hc | hc
      · exact ih _ _ hc
      · subst hc
        exact digitChar_isDigit _ (Nat.mod_lt n (by omega))

lemma natDigitsAux_ne_nil (fuel n : Nat) (h : 0 < fuel) : natDigitsAux fuel n ≠ [] := by
  cases fuel with
  | zero => omega
  | succ f =>
    by_cases h10 : n < 10
    · simp [natDigitsAux, h10]
    · simp [natDigitsAux, h10]

lemma natDigitsAux_foldl (fuel : Nat) :
    ∀ n acc, n < fuel →
      List.foldl (fun a c => a * 10 + digitVal c) acc (natDigitsAux fuel n) =
        acc * 10 ^ (natDigitsAux fuel n).length + n := by
  induction fuel with
  | zero => intro n acc h; omega
  | succ f ih =>
    intro n acc h
    by_cases h10 : n < 10
    · simp only [natDigitsAux, if_pos h10, List.foldl_cons, List.foldl_nil,
        List.length_cons, List.length_nil, digitChar_val n h10]
      ring_nf
    · have hdiv : n / 10 < f := by
        have h1 : n / 10 < n := Nat.div_lt_self (by omega) (by omega)
        omega
      have hmod : 10 * (n / 10) + n % 10 = n := Nat.div_add_mod n 10
      simp only [natDigitsAux, if_neg h10, List.foldl_append, List.length_append,
        List.length_cons, List.length_nil, List.foldl_cons, List.foldl_nil]
      rw [ih (n / 10) acc hdiv, digitChar_val (n % 10) (Nat.mod_lt n (by omega))]
      calc (acc * 10 ^ (natDigitsAux f (n / 10)).length + n / 10) * 10 + n % 10
          = acc * (10 ^ (natDigitsAux f (n / 10)).length * 10) + (10 * (n / 10) + n % 10) := by
            ring
        _ = acc * 10 ^ ((natDigitsAux f (n / 10)).length + (0 + 1)) + n := by
            rw [hmod]; ring_nf


lemma digitsToNat_natToString (n : Nat) : digitsToNat (natToString n).data = n := by
  have h := natDigitsAux_foldl (n + 1) n 0 (Nat.lt_succ_self n)
  simpa [digitsToNat, natToString] using h

lemma takeWhile_append_all (p : Char → Bool) :
    ∀ (l r : List Char), (∀ c ∈ l, p c = true) →
      (l ++ r).takeWhile p = l ++ r.takeWhile p := by
  intro l r h
  induction l with
  | nil => simp
  | cons c t ih =>
    have hc : p c = true := h c (List.mem_cons_self c t)
    simp only [List.cons_append, List.takeWhile_cons, hc, if_true]
    rw [ih fun x hx => h x (List.mem_cons_of_mem c hx)]

lemma dropWhile_append_all (p : Char → Bool) :
    ∀ (l r : List Char), (∀ c ∈ l, p c = true) →
      (l ++ r).dropWhile p = r.dropWhile p := by
  intro l r h
  induction l with
  | nil => simp
  | cons c t ih =>
    have hc : p c = true := h c (List.mem_cons_self c t)
    simp only [List.cons_append, List.dropWhile_cons, hc, if_true]
    exact ih fun x hx => h x (List.mem_cons_of_mem c hx)

lemma dropWhile_cons_result (p : Char → Bool) :
    ∀ (l : List Char) (c : Char) (t : List Char), l.dropWhile p = c :: t →
      p c = false ∧ c ∈ l ∧ ∀ r, (l ++ r).dropWhile p = c :: (t ++ r) := by
  intro l
  induction l with
  | nil => intro c t h; simp [List.dropWhile] at h
  | cons a l' ih =>
    intro c t h
    by_cases hpa : p a = true
    · rw [List.dropWhile_cons, if_pos hpa] at h
      obtain ⟨h1, h2, h3⟩ := ih c t h
      refine ⟨h1, List.mem_cons_of_mem a h2, fun r => ?_⟩
      rw [List.cons_append, List.dropWhile_cons, if_pos hpa]
      exact h3 r
    · rw [List.dropWhile_cons, if_neg hpa] at h
      injection h with hac hlt
      subst hac
      subst hlt
      refine ⟨Bool.eq_false_iff.mpr hpa, List.mem_cons_self a l', fun r => ?_⟩
      rw [List.cons_append, List.dropWhile_cons, if_neg hpa]

lemma tryMatchAt_hit (pre ds : List Char) (hw : ∀ c ∈ pre, isWordChar c = true)
    (hne : pre ≠ []) (hd : ∀ c ∈ ds, c.isDigit = true) (hdne : ds ≠ []) :
    tryMatchAt (pre ++ '(' :: (ds ++ [')'])) = some (digitsToNat ds) := by
  have h1 : (pre ++ '(' :: (ds ++ [')'])).takeWhile isWordChar = pre := by
    rw [takeWhile_append_all isWordChar pre _ hw]
    simp [List.takeWhile_cons, isWordChar_lparen]
  have h2 : (pre ++ '(' :: (ds ++ [')'])).dropWhile isWordChar = '(' :: (ds ++ [')']) := by
    rw [dropWhile_append_all isWordChar pre _ hw]
    simp [List.dropWhile_cons, isWordChar_lparen]
  have h3 : (ds ++ [')']).takeWhile Char.isDigit = ds := by
    rw [takeWhile_append_all Char.isDigit ds _ hd]
    simp [List.takeWhile_cons, isDigit_rparen]
  have h4 : (ds ++ [')']).dropWhile Char.isDigit = [')'] := by
    rw [dropWhile_append_all Char.isDigit ds _ hd]
    simp [List.dropWhile_cons, isDigit_rparen]
  simp only [tryMatchAt, h1, h2, h3, h4]
  rw [if_neg hne]
  simp [hdne]

lemma tryMatchAt_none_or (pre ds : List Char)
    (hpre : ∀ c ∈ pre, c ≠ '(' ∧ c ≠ ')')
    (hd : ∀ c ∈ ds, c.isDigit = true) (hdne : ds ≠ []) :
    tryMatchAt (pre ++ '(' :: (ds ++ [')'])) = none ∨
      tryMatchAt (pre ++ '(' :: (ds ++ [')'])) = some (digitsToNat ds) := by
  cases hsplit : List.dropWhile isWordChar pre with
  | nil =>
    have hall : ∀ c ∈ pre, isWordChar c = true := by
      intro c hc
      by_contra hfalse
      have : c ∈ List.dropWhile isWordChar pre := by
        rw [List.dropWhile_eq_nil_iff] at hsplit
        exact absurd (hsplit c hc) hfalse
      simp [hsplit] at this
    cases pre with
    | nil =>
      left
      simp [tryMatchAt, List.takeWhile_cons, isWordChar_lparen]
    | cons c t =>
      right
      exact tryMatchAt_hit (c :: t) ds hall (by simp) hd hdne
  | cons c t =>
    left
    obtain ⟨hc, hcmem, happ⟩ := dropWhile_cons_result isWordChar pre c t hsplit
    have hcpar : c ≠ '(' := (hpre c hcmem).1
    simp only [tryMatchAt, happ ('(' :: (ds ++ [')']))]
    split
    all_goals simp [hcpar]

lemma getLastD_cons_ne_nil (c : Char) (l : List Char) (d : Char) (h : l ≠ []) :
    (c :: l).getLastD d = l.getLastD d := by
  cases l with
  | nil => exact absurd rfl h
  | cons x xs => simp [List.getLastD]

lemma searchNum_eq (pre ds : List Char)
    (hpre : ∀ c ∈ pre, c ≠ '(' ∧ c ≠ ')')
    (hlast : isWordChar (pre.getLastD ' ') = true)
    (hd : ∀ c ∈ ds, c.isDigit = true) (hdne : ds ≠ []) :
    searchNum (pre ++ '(' :: (ds ++ [')'])) = some (digitsToNat ds) := by
  induction pre with
  | nil => exact absurd hlast (by decide)
  | cons c t ih =>
    cases t with
    | nil =>
      have hcw : isWordChar c = true := by simpa [List.getLastD] using hlast
      have hhit := tryMatchAt_hit [c] ds
        (by intro x hx; simp at hx; subst hx; exact hcw) (by simp) hd hdne
      simp only [List.cons_append, List.nil_append] at hhit ⊢
      simp [searchNum, hhit]
    | cons c2 t2 =>
      have hor := tryMatchAt_none_or (c :: c2 :: t2) ds hpre hd hdne
      have htail : searchNum ((c2 :: t2) ++ '(' :: (ds ++ [')'])) = some (digitsToNat ds) := by
        refine ih (fun x hx => hpre x (List.mem_cons_of_mem c hx)) ?_
        rw [← getLastD_cons_ne_nil c (c2 :: t2) ' ' (by simp)]
        exact hlast
      rcases hor with hnone | hsome
      · simp only [List.cons_append] at hnone ⊢
        simp [searchNum, hnone]
        simpa using htail
      · simp only [List.cons_append] at hsome ⊢
        simp [searchNum, hsome]

lemma padSp_length (w n : Nat) : (padSp w n).length = max w (natToString n).length := by
  unfold padSp
  by_cases h : (natToString n).length < w
  · rw [if_pos h, strLength_append, strLength_mk, List.length_replicate]
    omega
  · rw [if_neg h]
    omega

lemma pad0_length (w n : Nat) : (pad0 w n).length = max w (natToString n).length := by
  unfold pad0
  by_cases h : (natToString n).length < w
  · rw [if_pos h, strLength_append, strLength_mk, List.length_replicate]
    omega
  · rw [if_neg h]
    omega

/-- C1 (counterexample): the path `/systemd(1)` has a final segment that
decodes to the root identifier 1, yet `rmdir` returns success (0) and
issues a termination request addressed to pid 1, instead of failing
EINVAL with no side effect. -/
theorem claim1_counterexample :
    PsFS.rmdir "/systemd(1)" = (0, [1]) ∧ PsFS.getPid "systemd(1)" = 1 :=
  ⟨rfl, rfl⟩

/-- C1 (amended): RemoveDirectory fails EINVAL (and issues no termination
request) exactly when the final path segment is the literal string
`init(1)` or fails to decode; a final segment that decodes to
identifier 1 under any other spelling is terminated like any other pid. -/
theorem claim1_amended (path : String) :
    PsFS.rmdir path = (-22, []) ↔
      (lastStr (pySplit '/' path) = "init(1)" ∨
        PsFS.getPid (lastStr (pySplit '/' path)) = 0) := by
  simp only [PsFS.rmdir]
  by_cases h1 : lastStr (pySplit '/' path) = "init(1)"
  · simp [h1]
  · by_cases h2 : PsFS.getPid (lastStr (pySplit '/' path)) = 0
    · simp [h1, h2]
    · simp [h1, h2]

/-- C2 (counterexample): in a table where pid 42 is live with parent 7,
the directory segment of `/init(1)/bogus(42)` fails the ancestry check
(`isExist` is `false`), and yet `read` on `/init(1)/bogus(42)/USER`
returns the attribute's contents rather than ENOENT. -/
theorem claim2_counterexample :
    PsFS.isExist PsFS.snapMismatch "init(1)" "bogus(42)" = Except.ok false ∧
    PsFS.read PsFS.snapMismatch "/init(1)/bogus(42)/USER" 64 0 =
      PsFS.ReadResult.content "root\n" ∧
    PsFS.ReadResult.content "root\n" ≠ PsFS.ReadResult.err (-2) :=
  ⟨rfl, rfl, by decide⟩

/-- C2 (amended): on a mismatched-ancestry attribute path the directory
segment does resolve to NotFound (`isExist` yields `false`, so `getattr`
reports ENOENT), but `read` itself never re-validates ancestry: whenever
the second-to-last segment decodes to a live pid, `read` returns that
pid's attribute contents regardless of the claimed parent. -/
theorem claim2_amended (s : PsFS.Snapshot) (path parent child : String)
    (r : PsFS.ProcessRecord) (sz off : Nat)
    (hsplit : pySplit '/' path = ["", parent, child, "USER"])
    (hpp : PsFS.getPid parent ≠ 0) (hcp : PsFS.getPid child ≠ 0)
    (hr : PsFS.getProcessInfo s (PsFS.getPid child) = Except.ok r)
    (hmis : r.ppid ≠ PsFS.getPid parent) :
    PsFS.isExist s parent child = Except.ok false ∧
    PsFS.read s path sz off = PsFS.ReadResult.content (r.ruser ++ "\n") := by
  constructor
  · simp only [PsFS.isExist]
    rw [if_neg (by push_neg; exact ⟨hpp, hcp⟩), hr]
    simp [hmis]
  · have hlast : lastStr (pySplit '/' path) = "USER" := by rw [hsplit]; rfl
    have hpen : penultStr (pySplit '/' path) = child := by rw [hsplit]; rfl
    have hnr : path ≠ "/" := by
      intro hp
      rw [hp] at hsplit
      simp [pySplit, pySplitAux] at hsplit
    simp only [PsFS.read]
    rw [if_neg hnr, hlast, hpen]
    rw [if_pos (show PsFS.infoFiles.contains "USER" = true from rfl), if_neg hcp]
    simp only [PsFS.getFileInfo]
    rw [hr]
    rfl

/-- C3 (counterexample): the name `-` is non-empty and contains no
parenthesis or slash, yet decoding the segment produced by encoding
`("-", 5)` yields the failure sentinel 0, not 5: the regex `\w+\(\d+\)`
needs a word character right before the parenthesis. -/
theorem claim3_counterexample :
    PsFS.makeProcName "-" 5 = "-(5)" ∧ PsFS.getPid (PsFS.makeProcName "-" 5) = 0 :=
  ⟨rfl, by decide⟩

/-- C3 (amended): the identifier round-trips through encode/decode for
every positive identifier and every name that contains no parenthesis or
slash and whose final character is a word character (which also forces it
non-empty); the decoder recovers only the identifier, never the name. -/
theorem claim3_amended (n : String) (i : Nat) (hi : 0 < i)
    (hchars : ∀ c ∈ n.data, c ≠ '(' ∧ c ≠ ')' ∧ c ≠ '/')
    (hlast : isWordChar (n.data.getLastD ' ') = true) :
    PsFS.getPid (PsFS.makeProcName n i) = i := by
  have hds : ∀ c ∈ natDigitsAux (i + 1) i, c.isDigit = true :=
    fun c hc => natDigitsAux_all_digit (i + 1) i c hc
  have hdne : natDigitsAux (i + 1) i ≠ [] := natDigitsAux_ne_nil (i + 1) i (Nat.succ_pos i)
  have hdata : (PsFS.makeProcName n i).data =
      n.data ++ '(' :: (natDigitsAux (i + 1) i ++ [')']) := by
    simp only [PsFS.makeProcName]
    rw [strData_append, strData_append, strData_append, List.append_assoc, List.append_assoc]
    rfl
  simp only [PsFS.getPid]
  rw [hdata, searchNum_eq n.data _
    (fun c hc => ⟨(hchars c hc).1, (hchars c hc).2.1⟩) hlast hds hdne]
  simpa [natToString] using digitsToNat_natToString i

theorem claim3_amended_witness : PsFS.getPid (PsFS.makeProcName "sh" 42) = 42 :=
  claim3_amended "sh" 42 (by decide) (by decide) (by decide)

/-- C4 (counterexample): with the rendered data `root` plus newline being
5 bytes, a read with size 1 at offset 100 (past end-of-data, where the
claim requires the empty byte sequence) still returns all 5 bytes. -/
theorem claim4_counterexample :
    PsFS.read PsFS.sampleSnap "/init(1)/sh(42)/USER" 1 100 =
      PsFS.ReadResult.content "root\n" ∧
    ("root\n" : String).length = 5 ∧ ("root\n" : String) ≠ "" :=
  ⟨rfl, rfl, by decide⟩

/-- C4 (amended): on an attribute path whose second-to-last segment
decodes to a pid the provider knows, `read` returns the whole rendered
attribute text plus a newline, for every size and every offset: the size
and offset arguments are ignored. -/
theorem claim4_amended (s : PsFS.Snapshot) (path txt : String) (sz off : Nat)
    (hroot : path ≠ "/")
    (hlast : PsFS.infoFiles.contains (lastStr (pySplit '/' path)) = true)
    (hpid : PsFS.getPid (penultStr (pySplit '/' path)) ≠ 0)
    (htxt : PsFS.getFileInfo s (PsFS.getPid (penultStr (pySplit '/' path)))
        (lastStr (pySplit '/' path)) = Except.ok txt) :
    PsFS.read s path sz off = PsFS.ReadResult.content (txt ++ "\n") := by
  simp only [PsFS.read]
  rw [if_neg hroot, if_pos hlast, if_neg hpid, htxt]

theorem claim4_amended_witness :
    PsFS.read PsFS.sampleSnap "/init(1)/sh(42)/PID" 3 99 =
      PsFS.ReadResult.content ("42" ++ "\n") :=
  claim4_amended PsFS.sampleSnap "/init(1)/sh(42)/PID" "42" 3 99 (by decide) rfl
    (by decide) rfl

/-- C5 (counterexample): `open` with access mode 1 (write-only) on an
attribute path whose process (pid 99) is absent from the table still
succeeds: the flags are never inspected and the provider is never
queried. -/
theorem claim5_counterexample :
    PsFS.fsOpen "/init(1)/none(99)/USER" 1 = 0 ∧
    PsFS.getProcessInfo PsFS.sampleSnap 99 = Except.error PsFS.ProcError.pidNotFound :=
  ⟨rfl, rfl⟩

/-- C5 (amended): `open` succeeds exactly when the path is not the root
and its final segment is one of the eight attribute names; the access
mode and the process-table state play no role. -/
theorem claim5_amended (path : String) (flags : Nat) :
    PsFS.fsOpen path flags = 0 ↔
      path ≠ "/" ∧ PsFS.infoFiles.contains (lastStr (pySplit '/' path)) = true := by
  simp only [PsFS.fsOpen]
  by_cases h1 : path = "/"
  · simp [h1]
  · by_cases h2 : PsFS.infoFiles.contains (lastStr (pySplit '/' path)) = true
    · simp [h1, h2]
    · simp [h1, h2]

/-- C6 (code evaluated at the failing input): with pid 42 absent from the
table, `read` on `/init(1)/sh(42)/USER` does not return ENOENT: the
provider's "PID not found" error escapes uncaught (and the resolution
helper `isExist` aborts with the same error instead of yielding
NotFound). -/
theorem claim6_code_eval :
    PsFS.read PsFS.snapOnlyInit "/init(1)/sh(42)/USER" 64 0 = PsFS.ReadResult.raised ∧
    PsFS.isExist PsFS.snapOnlyInit "init(1)" "sh(42)" =
      Except.error PsFS.ProcError.pidNotFound ∧
    PsFS.ReadResult.raised ≠ PsFS.ReadResult.err (-2) :=
  ⟨rfl, rfl, by decide⟩

/-- C7 (counterexample): `/nonsense` resolves to nothing (its final
segment does not decode), yet `readdir` yields `.`/`..`, the eight
attribute names, and a directory entry for every process whose parent
identifier is the sentinel 0 (here `init(1)`), instead of failing
ENOENT. -/
theorem claim7_counterexample :
    PsFS.getPid "nonsense" = 0 ∧
    PsFS.readdir PsFS.sampleSnap "/nonsense" 0 =
      [⟨".", 0⟩, ⟨"..", 0⟩, ⟨"USER", PsFS.regFileMode⟩, ⟨"PID", PsFS.regFileMode⟩,
       ⟨"CPU", PsFS.regFileMode⟩, ⟨"MEM", PsFS.regFileMode⟩, ⟨"TTY", PsFS.regFileMode⟩,
       ⟨"START", PsFS.regFileMode⟩, ⟨"TIME", PsFS.regFileMode⟩,
       ⟨"COMMAND", PsFS.regFileMode⟩, ⟨"init(1)", PsFS.S_IFDIR⟩] :=
  ⟨by decide, rfl⟩

/-- C7 (amended): `readdir` never fails: on every non-root path,
resolvable or not, it yields `.` and `..`, the eight attribute entries,
and one directory entry per process whose parent identifier equals the
pid decoded from the final segment (the sentinel 0 when decoding
fails). -/
theorem claim7_amended (s : PsFS.Snapshot) (path : String) (off : Nat) (h : path ≠ "/") :
    PsFS.readdir s path off =
      [⟨".", 0⟩, ⟨"..", 0⟩] ++
      PsFS.infoFiles.map (fun i => ⟨i, PsFS.regFileMode⟩) ++
      (PsFS.getChildProcessInfo s (PsFS.getPid (lastStr (pySplit '/' path)))).map
        (fun child => ⟨PsFS.makeProcName child.cmd child.tid, PsFS.S_IFDIR⟩) := by
  simp only [PsFS.readdir, if_neg h]
  simp [List.append_assoc]

theorem claim7_amended_witness :
    PsFS.readdir PsFS.snapOnlyInit "/garbage" 0 =
      [⟨".", 0⟩, ⟨"..", 0⟩] ++
      PsFS.infoFiles.map (fun i => ⟨i, PsFS.regFileMode⟩) ++
      (PsFS.getChildProcessInfo PsFS.snapOnlyInit
          (PsFS.getPid (lastStr (pySplit '/' "/garbage")))).map
        (fun child => ⟨PsFS.makeProcName child.cmd child.tid, PsFS.S_IFDIR⟩) :=
  claim7_amended PsFS.snapOnlyInit "/garbage" 0 (by decide)

/-- C8 (counterexample): with pid 1's current command name being
`systemd`, the root listing still shows the hard-coded literal `init(1)`,
not the encoding `systemd(1)` of the current command name. -/
theorem claim8_counterexample :
    PsFS.readdir PsFS.snapSystemd "/" 0 =
      [⟨".", 0⟩, ⟨"..", 0⟩, ⟨"init(1)", PsFS.S_IFDIR⟩] ∧
    PsFS.makeProcName PsFS.systemdRec.cmd PsFS.systemdRec.tid = "systemd(1)" ∧
    ("systemd(1)" : String) ≠ "init(1)" :=
  ⟨rfl, rfl, by decide⟩

/-- C8 (amended): at Root, `readdir` yields exactly one entry after `.`
and `..`: the literal segment `init(1)` typed as a directory, for every
snapshot — pid 1's actual command name is never consulted. -/
theorem claim8_amended (s : PsFS.Snapshot) (off : Nat) :
    PsFS.readdir s "/" off = [⟨".", 0⟩, ⟨"..", 0⟩, ⟨"init(1)", PsFS.S_IFDIR⟩] :=
  rfl

/-- C9 (counterexample): for accumulated CPU time of 7 minutes 5 seconds
the rendered TIME text is `   7:05` — the minutes field is space-padded
by `"%4d"`, not the zero-padded `0007:05` the claim requires. -/
theorem claim9_counterexample :
    PsFS.getFileInfo PsFS.sampleSnap 42 "TIME" = Except.ok "   7:05" ∧
    ("   7:05" : String) ≠ "0007:05" :=
  ⟨rfl, by decide⟩

/-- C9 (amended): rendering TIME for a live record produces the minutes
right-aligned in a field of width at least 4 padded with spaces, a colon,
and the seconds zero-padded to 2 digits. -/
theorem claim9_amended (s : PsFS.Snapshot) (pid : Nat) (r : PsFS.ProcessRecord)
    (h : PsFS.getProcessInfo s pid = Except.ok r) :
    PsFS.getFileInfo s pid "TIME" =
      Except.ok (padSp 4 r.timeMin ++ ":" ++ pad0 2 r.timeSec) ∧
    (padSp 4 r.timeMin).length = max 4 (natToString r.timeMin).length ∧
    (pad0 2 r.timeSec).length = max 2 (natToString r.timeSec).length := by
  refine ⟨?_, padSp_length 4 r.timeMin, pad0_length 2 r.timeSec⟩
  simp only [PsFS.getFileInfo]
  rw [h]
  simp

theorem claim9_amended_witness :
    PsFS.getFileInfo PsFS.sampleSnap 42 "TIME" =
      Except.ok (padSp 4 PsFS.shRec.timeMin ++ ":" ++ pad0 2 PsFS.shRec.timeSec) ∧
    (padSp 4 PsFS.shRec.timeMin).length = max 4 (natToString PsFS.shRec.timeMin).length ∧
    (pad0 2 PsFS.shRec.timeSec).length = max 2 (natToString PsFS.shRec.timeSec).length :=
  claim9_amended PsFS.sampleSnap 42 PsFS.shRec rfl

/-- C10: when the final segment is not the literal `init(1)` and decodes
to a positive identifier, `rmdir` issues exactly one termination request
addressed to that identifier and returns success — for every path,
whatever its other segments; `rmdir` takes no snapshot argument because
the source method never consults the process table, so the outcome is
independent of the process-table state. -/
theorem claim10_rmdir_no_snapshot (path : String)
    (h1 : lastStr (pySplit '/' path) ≠ "init(1)")
    (h2 : 0 < PsFS.getPid (lastStr (pySplit '/' path))) :
    PsFS.rmdir path = (0, [PsFS.getPid (lastStr (pySplit '/' path))]) := by
  simp only [PsFS.rmdir]
  rw [if_neg h1, if_neg (by omega)]

theorem claim10_rmdir_no_snapshot_witness :
    PsFS.rmdir "/init(1)/sh(42)" = (0, [42]) :=
  claim10_rmdir_no_snapshot "/init(1)/sh(42)" (by decide) (by decide)

theorem claim2_amended_witness :
    PsFS.isExist PsFS.snapMismatch "init(1)" "bogus(42)" = Except.ok false ∧
    PsFS.read PsFS.snapMismatch "/init(1)/bogus(42)/USER" 64 0 =
      PsFS.ReadResult.content (PsFS.bogusRec.ruser ++ "\n") :=
  claim2_amended PsFS.snapMismatch "/init(1)/bogus(42)/USER" "init(1)" "bogus(42)"
    PsFS.bogusRec 64 0 rfl (by decide) (by decide) rfl (by decide)
